import Mathlib

/-!
Shallow embedding of `src/main.py` (Shopify low-inventory alert service).

Modelling conventions:
- Python dicts keyed by variant-id strings are modelled as association lists
  `List (String × _)` with Python-dict semantics: `lookupKey` returns the value
  of the (unique) matching key, `setKey` updates in place preserving insertion
  order (appending when the key is new), `delKey` removes the key.
- Timestamps are modelled as `Int`.  The code stores `datetime.now().isoformat()`
  strings and compares them after `fromisoformat`, which round-trips, and the
  ordering on datetimes is a linear order, so an integer clock is faithful.
  The code reads the clock several times inside one invocation
  (`main.py:52`, `main.py:80`, `main.py:137`); all reads within one invocation
  are modelled as the same instant `now`.
- `requests.get` + JSON parsing is modelled as an `Except String (List Product)`
  input: `.error` is any exception raised while fetching/parsing the catalog.
- The SendGrid send (`main.py:130-131`) is modelled by a boolean `sendOk`
  (delivery succeeded or raised); the surrounding `try/except` in
  `send_inventory_alert` swallows a delivery failure, so `sendOk` only decides
  whether an email value is produced.  Building the message body
  (`main.py:114-118`) happens before that `try` block, and a missing dict key
  there raises a `KeyError` that propagates; this is modelled by
  `Except String` results of the body builder.
-/

namespace ShopifyAlerts

/-- Record stored in `alerted_items` (`main.py:30`, `main.py:75-78`):
`{"last_alert": timestamp, "inventory": count}`. -/
structure AlertRecord where
  last_alert : Int
  inventory : Int
deriving DecidableEq

/-- The persisted ledger (`main.py:29-32`): `alerted_items` maps a variant id to
an `AlertRecord`; `pending_reminders` maps a variant id to the next reminder
time. -/
structure AlertData where
  alerted_items : List (String × AlertRecord)
  pending_reminders : List (String × Int)
deriving DecidableEq

/-- `INVENTORY_THRESHOLD = 2` (`main.py:20`). -/
def INVENTORY_THRESHOLD : Int := 2

/-- `REMINDER_DAYS = 7` (`main.py:21`), taken as the duration added to `now`
when scheduling a reminder (`main.py:80-82`). -/
def REMINDER_DAYS : Int := 7

/-- Python dict read `m[k]` / `m.get(k)`: value at key `k0`, if present. -/
def lookupKey {α : Type} : List (String × α) → String → Option α
  | [], _ => none
  | (k, v) :: rest, k0 => if k = k0 then some v else lookupKey rest k0

/-- Python dict write `m[k0] = v0`: replace in place, append when absent. -/
def setKey {α : Type} : List (String × α) → String → α → List (String × α)
  | [], k0, v0 => [(k0, v0)]
  | (k, v) :: rest, k0, v0 =>
    if k = k0 then (k0, v0) :: rest else (k, v) :: setKey rest k0 v0

/-- Python dict delete `del m[k0]` (no-op when the key is absent, matching the
guarded deletes in the source, e.g. `main.py:88-89`). -/
def delKey {α : Type} : List (String × α) → String → List (String × α)
  | [], _ => []
  | (k, v) :: rest, k0 =>
    if k = k0 then delKey rest k0 else (k, v) :: delKey rest k0

/-- A catalog variant as consumed by `check_inventory` (`main.py:59-61`):
`variant["id"]` (already stringified, `main.py:60`), `variant["title"]`, and the
optional `inventory_quantity` field read via `.get(..., 0)` (`main.py:61`). -/
structure Variant where
  id : String
  title : String
  inventory_quantity : Option Int
deriving DecidableEq

/-- A catalog product (`main.py:58-59`): `product["title"]` and its variants. -/
structure Product where
  title : String
  variants : List Variant
deriving DecidableEq

/-- A notification item dict.  The new-alert path (`main.py:68-73`) populates
all four fields; the reminder path (`main.py:146-149`) populates only
`variant_id`.  Absent dict keys are `none`. -/
structure Item where
  product_title : Option String
  variant_title : Option String
  inventory : Option Int
  variant_id : Option String
deriving DecidableEq

/-- An email as handed to the provider (`main.py:122-127`). -/
structure Email where
  subject : String
  body : String
deriving DecidableEq

/-- One body line per item (`main.py:114-118`): reads `item["product_title"]`,
`item["variant_title"]`, `item["inventory"]`; a missing key raises `KeyError`. -/
def renderItem (it : Item) : Except String String :=
  match it.product_title with
  | none => Except.error "KeyError: product_title"
  | some p =>
    match it.variant_title with
    | none => Except.error "KeyError: variant_title"
    | some vt =>
      match it.inventory with
      | none => Except.error "KeyError: inventory"
      | some inv =>
        Except.ok ("- " ++ p ++ " (" ++ vt ++ "): " ++ toString inv ++ " items remaining\n")

/-- The loop at `main.py:114-118` joining the body lines (`main.py:120`);
the first missing key aborts with its `KeyError`. -/
def buildBody : List Item → Except String String
  | [] => Except.ok ""
  | it :: rest =>
    match renderItem it with
    | Except.error e => Except.error e
    | Except.ok s =>
      match buildBody rest with
      | Except.error e => Except.error e
      | Except.ok r => Except.ok (s ++ r)

/-- `send_inventory_alert` (`main.py:104-134`).  Body building happens before
the `try` block, so its `KeyError` propagates to the caller (`.error`).  The
actual send is inside `try/except` (`main.py:129-134`): a delivery failure is
logged and swallowed, so the result is `.ok none` when delivery fails and
`.ok (some email)` when it succeeds. -/
def send_inventory_alert (items : List Item) (isReminder : Bool) (sendOk : Bool) :
    Except String (Option Email) :=
  match buildBody items with
  | Except.error e => Except.error e
  | Except.ok b =>
    let subject := if isReminder then "Low Inventory Reminder" else "Low Inventory Alert"
    Except.ok (if sendOk then
      some { subject := subject, body := "The following items have low inventory:\n" ++ b }
    else none)

/-- The per-variant body of the evaluator loop (`main.py:59-89`).  `acc` is the
pair (low-inventory items collected so far, current in-memory ledger). -/
def processVariant (now : Int) (productTitle : String) (v : Variant)
    (acc : List Item × AlertData) : List Item × AlertData :=
  let st := acc.2
  let inventory := v.inventory_quantity.getD 0
  if inventory ≤ INVENTORY_THRESHOLD then
    if (match lookupKey st.alerted_items v.id with
        | none => true
        | some r => decide (r.inventory < inventory)) then
      (acc.1 ++ [{ product_title := some productTitle, variant_title := some v.title,
                   inventory := some inventory, variant_id := some v.id }],
       { alerted_items := setKey st.alerted_items v.id
           { last_alert := now, inventory := inventory },
         pending_reminders := setKey st.pending_reminders v.id (now + REMINDER_DAYS) })
    else acc
  else
    if (lookupKey st.alerted_items v.id).isSome then
      (acc.1,
       { alerted_items := delKey st.alerted_items v.id,
         pending_reminders := delKey st.pending_reminders v.id })
    else acc

/-- The nested product/variant loops of `check_inventory` (`main.py:58-89`),
starting from an empty `low_inventory_items` list (`main.py:50`). -/
def processProducts (now : Int) (products : List Product) (st : AlertData) :
    List Item × AlertData :=
  products.foldl
    (fun acc p => p.variants.foldl (fun a v => processVariant now p.title v a) acc)
    ([], st)

/-- The loop of `check_reminders` (`main.py:140-151`): iterate over a snapshot
of `pending_reminders`; a due entry is deleted from the live dict, and
contributes a reminder item (holding only `variant_id`, `main.py:146-149`)
exactly when the variant is still present in `alerted_items`. -/
def schedLoop (now : Int) (alerted : List (String × AlertRecord)) :
    List (String × Int) → List Item × List (String × Int)
  | [] => ([], [])
  | (vid, due) :: rest =>
    let r := schedLoop now alerted rest
    if due ≤ now then
      if (lookupKey alerted vid).isSome then
        ({ product_title := none, variant_title := none, inventory := none,
           variant_id := some vid } :: r.1, r.2)
      else r
    else (r.1, (vid, due) :: r.2)

/-- `check_reminders` (`main.py:136-154`): run the loop, then send a reminder
email when any items are due (`main.py:153-154`).  The dict mutation is in
place and therefore stands even when the send raises, which is reflected by
returning the mutated ledger alongside the send outcome. -/
def check_reminders (now : Int) (sendOk : Bool) (st : AlertData) :
    AlertData × Except String (Option Email) :=
  let r := schedLoop now st.alerted_items st.pending_reminders
  ({ st with pending_reminders := r.2 },
   if r.1.isEmpty then Except.ok none else send_inventory_alert r.1 true sendOk)

/-- Observable outcome of one `check_inventory` invocation:
`saved` is the ledger passed to `save_inventory_alerts` (`main.py:99`), `none`
when the save was never reached; `alertEmail` / `reminderEmail` are the emails
actually delivered; `errorLogged` records whether the outer `except` clause
(`main.py:101-102`) fired. -/
structure CycleResult where
  saved : Option AlertData
  alertEmail : Option Email
  reminderEmail : Option Email
  errorLogged : Bool
deriving DecidableEq

/-- `check_inventory` (`main.py:44-102`).  `fetch` is the outcome of the
catalog request + JSON parse (`main.py:55-56`); any exception inside the `try`
block jumps to `main.py:101`, skipping everything after it (in particular the
save at `main.py:99`).  `sendOk1` / `sendOk2` are the delivery outcomes of the
new-alert and reminder sends.  The function itself never raises: the outer
`except` swallows every exception. -/
def check_inventory (fetch : Except String (List Product)) (stored : AlertData)
    (now : Int) (sendOk1 sendOk2 : Bool) : CycleResult :=
  match fetch with
  | Except.error _ => { saved := none, alertEmail := none, reminderEmail := none,
                        errorLogged := true }
  | Except.ok products =>
    let r := processProducts now products stored
    let alertSend : Except String (Option Email) :=
      if r.1.isEmpty then Except.ok none else send_inventory_alert r.1 false sendOk1
    match alertSend with
    | Except.error _ => { saved := none, alertEmail := none, reminderEmail := none,
                          errorLogged := true }
    | Except.ok aEmail =>
      let rr := check_reminders now sendOk2 r.2
      match rr.2 with
      | Except.error _ => { saved := none, alertEmail := aEmail, reminderEmail := none,
                            errorLogged := true }
      | Except.ok rEmail => { saved := some rr.1, alertEmail := aEmail,
                              reminderEmail := rEmail, errorLogged := false }

/-- `handle_order_webhook` (`main.py:202-210`).  `check_inventory` swallows all
its exceptions (`main.py:101-102`), so the handler's own `except` branch is
unreachable and the response is always `("success", 200)`.  The result is
(HTTP status, response body tag, cycle outcome). -/
def handle_order_webhook (fetch : Except String (List Product)) (stored : AlertData)
    (now : Int) (sendOk1 sendOk2 : Bool) : Nat × String × CycleResult :=
  (200, "success", check_inventory fetch stored now sendOk1 sendOk2)

/-- `handle_reminder_check` (`main.py:212-221`): loads the ledger, runs
`check_reminders` on it, and returns without ever calling
`save_inventory_alerts`, so the persisted ledger after the invocation is the
`stored` input unchanged in every branch.  A `KeyError` escaping
`check_reminders` is caught at `main.py:220` and answered with status 500.
The result is (HTTP status, delivered reminder email, persisted ledger after
the invocation). -/
def handle_reminder_check (stored : AlertData) (now : Int) (sendOk : Bool) :
    Nat × Option Email × AlertData :=
  let r := check_reminders now sendOk stored
  match r.2 with
  | Except.error _ => (500, none, stored)
  | Except.ok em => (200, em, stored)

/-! ### Dictionary lemmas -/

theorem lookupKey_setKey_self {α : Type} (m : List (String × α)) (k : String) (v : α) :
    lookupKey (setKey m k v) k = some v := by
  induction m with
  | nil => simp [setKey, lookupKey]
  | cons p rest ih =>
    obtain ⟨k1, v1⟩ := p
    by_cases h : k1 = k
    · simp [setKey, h, lookupKey]
    · simp [setKey, h, lookupKey, ih]

theorem lookupKey_setKey_ne {α : Type} (m : List (String × α)) (k k0 : String) (v : α)
    (h : k ≠ k0) : lookupKey (setKey m k v) k0 = lookupKey m k0 := by
  induction m with
  | nil => simp [setKey, lookupKey, h]
  | cons p rest ih =>
    obtain ⟨k1, v1⟩ := p
    by_cases h1 : k1 = k
    · subst h1
      simp [setKey, lookupKey, h]
    · simp [setKey, h1, lookupKey, ih]

theorem lookupKey_delKey_self {α : Type} (m : List (String × α)) (k : String) :
    lookupKey (delKey m k) k = none := by
  induction m with
  | nil => simp [delKey, lookupKey]
  | cons p rest ih =>
    obtain ⟨k1, v1⟩ := p
    by_cases h : k1 = k
    · simp [delKey, h, ih]
    · simp [delKey, h, lookupKey, ih]

theorem lookupKey_delKey_ne {α : Type} (m : List (String × α)) (k k0 : String)
    (h : k ≠ k0) : lookupKey (delKey m k) k0 = lookupKey m k0 := by
  induction m with
  | nil => simp [delKey]
  | cons p rest ih =>
    obtain ⟨k1, v1⟩ := p
    by_cases h1 : k1 = k
    · subst h1
      simp [delKey, lookupKey, h, ih]
    · simp [delKey, h1, lookupKey, ih]

/-! ### C1: per-variant evaluator behavior on low-stock variants -/

/-- The raise condition of `main.py:66-67`: no entry in `alerted_items`, or the
recorded inventory is strictly below the current inventory. -/
def alertCond (st : AlertData) (vid : String) (inv : Int) : Prop :=
  lookupKey st.alerted_items vid = none ∨
    ∃ r, lookupKey st.alerted_items vid = some r ∧ r.inventory < inv

/-- The state and output produced by raising an alert (`main.py:68-82`). -/
def raiseResult (now : Int) (productTitle : String) (v : Variant)
    (acc : List Item × AlertData) : List Item × AlertData :=
  (acc.1 ++ [{ product_title := some productTitle, variant_title := some v.title,
               inventory := some (v.inventory_quantity.getD 0), variant_id := some v.id }],
   { alerted_items := setKey acc.2.alerted_items v.id
       { last_alert := now, inventory := v.inventory_quantity.getD 0 },
     pending_reminders := setKey acc.2.pending_reminders v.id (now + REMINDER_DAYS) })

/-- C1: for a snapshot variant whose inventory is at most the threshold, the
evaluator raises a new alert exactly when the variant has no `alerted_items`
entry or the recorded inventory is strictly below the current one; on raising
it appends the item (product title, variant title, inventory, variant id),
stores `{last_alert := now, inventory}` under the variant id, and schedules a
reminder at `now + REMINDER_DAYS`; otherwise it changes nothing. -/
theorem c1_low_stock_alert_iff (now : Int) (productTitle : String) (v : Variant)
    (acc : List Item × AlertData)
    (hlow : v.inventory_quantity.getD 0 ≤ INVENTORY_THRESHOLD) :
    (alertCond acc.2 v.id (v.inventory_quantity.getD 0) →
       processVariant now productTitle v acc = raiseResult now productTitle v acc) ∧
    (¬ alertCond acc.2 v.id (v.inventory_quantity.getD 0) →
       processVariant now productTitle v acc = acc) := by
  constructor
  · intro hc
    rcases hc with hnone | ⟨r, hr, hlt⟩
    · simp [processVariant, hlow, hnone, raiseResult]
    · simp [processVariant, hlow, hr, hlt, raiseResult]
  · intro hc
    rw [alertCond] at hc
    push_neg at hc
    obtain ⟨hne, hrec⟩ := hc
    cases hfind : lookupKey acc.2.alerted_items v.id with
    | none => exact absurd hfind hne
    | some r =>
      have hge : ¬ r.inventory < v.inventory_quantity.getD 0 := by
        intro hlt
        exact absurd hlt (by simpa using hrec r hfind)
      simp [processVariant, hlow, hfind, hge]

/-- Witness for C1 at a concrete input: variant id "100" with inventory 1 and
an empty ledger raises an alert with the expected item and ledger updates. -/
theorem c1_low_stock_alert_iff_witness :
    processVariant 5 "Shirt" { id := "100", title := "M", inventory_quantity := some 1 }
        ([], { alerted_items := [], pending_reminders := [] }) =
      ([{ product_title := some "Shirt", variant_title := some "M",
          inventory := some 1, variant_id := some "100" }],
       { alerted_items := [("100", { last_alert := 5, inventory := 1 })],
         pending_reminders := [("100", 12)] }) := by
  have h := c1_low_stock_alert_iff 5 "Shirt"
    { id := "100", title := "M", inventory_quantity := some 1 }
    ([], { alerted_items := [], pending_reminders := [] }) (by decide)
  have h2 := h.1 (Or.inl (by decide))
  rw [h2]
  decide

/-! ### C10: missing `inventory_quantity` defaults to zero -/

/-- C10: a snapshot variant lacking the `inventory_quantity` field is processed
exactly like the same variant with an explicit inventory of 0, and 0 is at most
the threshold, so such a variant is classified low-stock and eligible to alert
exactly as a genuinely zero-stock variant is (`main.py:61`, `variant.get`). -/
theorem c10_missing_inventory_defaults_to_zero (now : Int) (productTitle : String)
    (id title : String) (acc : List Item × AlertData) :
    processVariant now productTitle { id := id, title := title, inventory_quantity := none } acc =
      processVariant now productTitle
        { id := id, title := title, inventory_quantity := some 0 } acc ∧
    (0 : Int) ≤ INVENTORY_THRESHOLD := by
  exact ⟨rfl, by decide⟩

/-! ### Scheduler lemmas -/

theorem schedLoop_nil (now : Int) (alerted : List (String × AlertRecord)) :
    schedLoop now alerted [] = ([], []) := rfl

theorem schedLoop_cons_due_some (now : Int) (alerted : List (String × AlertRecord))
    (vid : String) (due : Int) (rest : List (String × Int))
    (h1 : due ≤ now) (h2 : (lookupKey alerted vid).isSome) :
    schedLoop now alerted ((vid, due) :: rest) =
      ({ product_title := none, variant_title := none, inventory := none,
         variant_id := some vid } :: (schedLoop now alerted rest).1,
       (schedLoop now alerted rest).2) := by
  simp [schedLoop, h1, h2]

theorem schedLoop_cons_due_none (now : Int) (alerted : List (String × AlertRecord))
    (vid : String) (due : Int) (rest : List (String × Int))
    (h1 : due ≤ now) (h2 : ¬ (lookupKey alerted vid).isSome) :
    schedLoop now alerted ((vid, due) :: rest) = schedLoop now alerted rest := by
  simp [schedLoop, h1, h2]

theorem schedLoop_cons_notdue (now : Int) (alerted : List (String × AlertRecord))
    (vid : String) (due : Int) (rest : List (String × Int))
    (h1 : ¬ due ≤ now) :
    schedLoop now alerted ((vid, due) :: rest) =
      ((schedLoop now alerted rest).1, (vid, due) :: (schedLoop now alerted rest).2) := by
  simp [schedLoop, h1]

theorem schedLoop_notin (now : Int) (alerted : List (String × AlertRecord))
    (pending : List (String × Int)) (vid : String)
    (h : vid ∉ pending.map Prod.fst) :
    (schedLoop now alerted pending).1.countP (fun it => decide (it.variant_id = some vid)) = 0 ∧
    lookupKey (schedLoop now alerted pending).2 vid = none := by
  induction pending with
  | nil => simp [schedLoop_nil, lookupKey]
  | cons p rest ih =>
    obtain ⟨k, d⟩ := p
    simp only [List.map_cons, List.mem_cons] at h
    push_neg at h
    obtain ⟨hk, hrest⟩ := h
    have hk2 : ¬ (k = vid) := fun hkv => hk hkv.symm
    have ih2 := ih hrest
    by_cases hd : d ≤ now
    · by_cases ha : (lookupKey alerted k).isSome
      · rw [schedLoop_cons_due_some now alerted k d rest hd ha]
        refine ⟨?_, ih2.2⟩
        simp [List.countP_cons, ih2.1, hk2]
      · rw [schedLoop_cons_due_none now alerted k d rest hd ha]
        exact ih2
    · rw [schedLoop_cons_notdue now alerted k d rest hd]
      refine ⟨ih2.1, ?_⟩
      rw [lookupKey, if_neg hk2]
      exact ih2.2

theorem schedLoop_entry (now : Int) (alerted : List (String × AlertRecord))
    (pending : List (String × Int)) (vid : String) (due : Int)
    (hmem : lookupKey pending vid = some due)
    (hnd : (pending.map Prod.fst).Nodup) :
    (now < due →
       (schedLoop now alerted pending).1.countP
           (fun it => decide (it.variant_id = some vid)) = 0 ∧
       lookupKey (schedLoop now alerted pending).2 vid = some due) ∧
    (due ≤ now →
       lookupKey (schedLoop now alerted pending).2 vid = none ∧
       (schedLoop now alerted pending).1.countP
           (fun it => decide (it.variant_id = some vid)) =
         (if (lookupKey alerted vid).isSome then 1 else 0)) := by
  induction pending with
  | nil => simp [lookupKey] at hmem
  | cons p rest ih =>
    obtain ⟨k, d⟩ := p
    simp only [List.map_cons, List.nodup_cons] at hnd
    obtain ⟨hknotin, hndrest⟩ := hnd
    by_cases hkv : k = vid
    · subst hkv
      rw [lookupKey, if_pos rfl] at hmem
      injection hmem with hdue
      have hrest := schedLoop_notin now alerted rest k hknotin
      constructor
      · intro hlt
        have hd : ¬ d ≤ now := by omega
        rw [schedLoop_cons_notdue now alerted k d rest hd]
        refine ⟨hrest.1, ?_⟩
        rw [lookupKey, if_pos rfl, hdue]
      · intro hd2
        have hd : d ≤ now := by omega
        by_cases ha : (lookupKey alerted k).isSome
        · rw [schedLoop_cons_due_some now alerted k d rest hd ha]
          refine ⟨hrest.2, ?_⟩
          simp [List.countP_cons, hrest.1, ha]
        · rw [schedLoop_cons_due_none now alerted k d rest hd ha]
          refine ⟨hrest.2, ?_⟩
          simp [hrest.1, ha]
    · rw [lookupKey, if_neg hkv] at hmem
      have ih2 := ih hmem hndrest
      by_cases hd : d ≤ now
      · by_cases ha : (lookupKey alerted k).isSome
        · rw [schedLoop_cons_due_some now alerted k d rest hd ha]
          constructor
          · intro hlt
            refine ⟨?_, (ih2.1 hlt).2⟩
            simp [List.countP_cons, (ih2.1 hlt).1, hkv]
          · intro hd2
            refine ⟨(ih2.2 hd2).1, ?_⟩
            simp [List.countP_cons, (ih2.2 hd2).2, hkv]
        · rw [schedLoop_cons_due_none now alerted k d rest hd ha]
          exact ih2
      · rw [schedLoop_cons_notdue now alerted k d rest hd]
        constructor
        · intro hlt
          refine ⟨(ih2.1 hlt).1, ?_⟩
          rw [lookupKey, if_neg hkv]
          exact (ih2.1 hlt).2
        · intro hd2
          refine ⟨?_, (ih2.2 hd2).2⟩
          rw [lookupKey, if_neg hkv]
          exact (ih2.2 hd2).1

theorem schedLoop_pending_isSome (now : Int) (alerted : List (String × AlertRecord))
    (pending : List (String × Int)) (k : String)
    (h : (lookupKey (schedLoop now alerted pending).2 k).isSome) :
    (lookupKey pending k).isSome := by
  induction pending with
  | nil => simp [schedLoop_nil, lookupKey] at h
  | cons p rest ih =>
    obtain ⟨k1, d⟩ := p
    by_cases hk : k1 = k
    · simp [lookupKey, hk]
    · rw [lookupKey, if_neg hk]
      by_cases hd : d ≤ now
      · by_cases ha : (lookupKey alerted k1).isSome
        · rw [schedLoop_cons_due_some now alerted k1 d rest hd ha] at h
          exact ih h
        · rw [schedLoop_cons_due_none now alerted k1 d rest hd ha] at h
          exact ih h
      · rw [schedLoop_cons_notdue now alerted k1 d rest hd] at h
        rw [lookupKey, if_neg hk] at h
        exact ih h

/-! ### Per-variant branch equations for the evaluator -/

theorem processVariant_raise_none (now : Int) (pt : String) (v : Variant)
    (acc : List Item × AlertData)
    (h1 : v.inventory_quantity.getD 0 ≤ INVENTORY_THRESHOLD)
    (h2 : lookupKey acc.2.alerted_items v.id = none) :
    processVariant now pt v acc = raiseResult now pt v acc := by
  simp [processVariant, h1, h2, raiseResult]

theorem processVariant_raise_lt (now : Int) (pt : String) (v : Variant)
    (acc : List Item × AlertData)
    (h1 : v.inventory_quantity.getD 0 ≤ INVENTORY_THRESHOLD) (r : AlertRecord)
    (h2 : lookupKey acc.2.alerted_items v.id = some r)
    (h3 : r.inventory < v.inventory_quantity.getD 0) :
    processVariant now pt v acc = raiseResult now pt v acc := by
  simp [processVariant, h1, h2, h3, raiseResult]

theorem processVariant_skip (now : Int) (pt : String) (v : Variant)
    (acc : List Item × AlertData)
    (h1 : v.inventory_quantity.getD 0 ≤ INVENTORY_THRESHOLD) (r : AlertRecord)
    (h2 : lookupKey acc.2.alerted_items v.id = some r)
    (h3 : ¬ r.inventory < v.inventory_quantity.getD 0) :
    processVariant now pt v acc = acc := by
  simp [processVariant, h1, h2, h3]

theorem processVariant_replenish (now : Int) (pt : String) (v : Variant)
    (acc : List Item × AlertData)
    (h1 : ¬ v.inventory_quantity.getD 0 ≤ INVENTORY_THRESHOLD)
    (h2 : (lookupKey acc.2.alerted_items v.id).isSome) :
    processVariant now pt v acc =
      (acc.1, { alerted_items := delKey acc.2.alerted_items v.id,
                pending_reminders := delKey acc.2.pending_reminders v.id }) := by
  simp [processVariant, h1, h2]

theorem processVariant_high_absent (now : Int) (pt : String) (v : Variant)
    (acc : List Item × AlertData)
    (h1 : ¬ v.inventory_quantity.getD 0 ≤ INVENTORY_THRESHOLD)
    (h2 : ¬ (lookupKey acc.2.alerted_items v.id).isSome) :
    processVariant now pt v acc = acc := by
  simp [processVariant, h1, h2]

theorem processVariant_lookup_alerted_ne (now : Int) (pt : String) (v : Variant)
    (acc : List Item × AlertData) (k : String) (hne : k ≠ v.id) :
    lookupKey (processVariant now pt v acc).2.alerted_items k =
      lookupKey acc.2.alerted_items k := by
  by_cases h1 : v.inventory_quantity.getD 0 ≤ INVENTORY_THRESHOLD
  · cases hfind : lookupKey acc.2.alerted_items v.id with
    | none =>
      rw [processVariant_raise_none now pt v acc h1 hfind]
      exact lookupKey_setKey_ne acc.2.alerted_items v.id k _ (Ne.symm hne)
    | some r =>
      by_cases h3 : r.inventory < v.inventory_quantity.getD 0
      · rw [processVariant_raise_lt now pt v acc h1 r hfind h3]
        exact lookupKey_setKey_ne acc.2.alerted_items v.id k _ (Ne.symm hne)
      · rw [processVariant_skip now pt v acc h1 r hfind h3]
  · by_cases h2 : (lookupKey acc.2.alerted_items v.id).isSome
    · rw [processVariant_replenish now pt v acc h1 h2]
      exact lookupKey_delKey_ne acc.2.alerted_items v.id k (Ne.symm hne)
    · rw [processVariant_high_absent now pt v acc h1 h2]

theorem processVariant_lookup_pending_ne (now : Int) (pt : String) (v : Variant)
    (acc : List Item × AlertData) (k : String) (hne : k ≠ v.id) :
    lookupKey (processVariant now pt v acc).2.pending_reminders k =
      lookupKey acc.2.pending_reminders k := by
  by_cases h1 : v.inventory_quantity.getD 0 ≤ INVENTORY_THRESHOLD
  · cases hfind : lookupKey acc.2.alerted_items v.id with
    | none =>
      rw [processVariant_raise_none now pt v acc h1 hfind]
      exact lookupKey_setKey_ne acc.2.pending_reminders v.id k _ (Ne.symm hne)
    | some r =>
      by_cases h3 : r.inventory < v.inventory_quantity.getD 0
      · rw [processVariant_raise_lt now pt v acc h1 r hfind h3]
        exact lookupKey_setKey_ne acc.2.pending_reminders v.id k _ (Ne.symm hne)
      · rw [processVariant_skip now pt v acc h1 r hfind h3]
  · by_cases h2 : (lookupKey acc.2.alerted_items v.id).isSome
    · rw [processVariant_replenish now pt v acc h1 h2]
      exact lookupKey_delKey_ne acc.2.pending_reminders v.id k (Ne.symm hne)
    · rw [processVariant_high_absent now pt v acc h1 h2]

/-! ### Flattened evaluator -/

/-- The snapshot flattened to (product title, variant) pairs in loop order. -/
def variantPairs (products : List Product) : List (String × Variant) :=
  (products.map (fun p => p.variants.map (fun v => (p.title, v)))).flatten

/-- The evaluator loop as a fold over the flattened snapshot. -/
def processPairs (now : Int) (pairs : List (String × Variant))
    (acc : List Item × AlertData) : List Item × AlertData :=
  pairs.foldl (fun a pv => processVariant now pv.1 pv.2 a) acc

theorem variantPairs_cons (p : Product) (ps : List Product) :
    variantPairs (p :: ps) =
      p.variants.map (fun v => (p.title, v)) ++ variantPairs ps := by
  simp [variantPairs]

theorem processPairs_nil (now : Int) (acc : List Item × AlertData) :
    processPairs now [] acc = acc := rfl

theorem processPairs_cons (now : Int) (pv : String × Variant)
    (pairs : List (String × Variant)) (acc : List Item × AlertData) :
    processPairs now (pv :: pairs) acc =
      processPairs now pairs (processVariant now pv.1 pv.2 acc) := rfl

theorem processPairs_append (now : Int) (l1 l2 : List (String × Variant))
    (acc : List Item × AlertData) :
    processPairs now (l1 ++ l2) acc = processPairs now l2 (processPairs now l1 acc) := by
  simp [processPairs, List.foldl_append]

theorem processProducts_eq_processPairs (now : Int) (products : List Product)
    (st : AlertData) :
    processProducts now products st = processPairs now (variantPairs products) ([], st) := by
  suffices h : ∀ (ps : List Product) (acc : List Item × AlertData),
      ps.foldl (fun acc p => p.variants.foldl (fun a v => processVariant now p.title v a) acc)
          acc = processPairs now (variantPairs ps) acc by
    exact h products ([], st)
  intro ps
  induction ps with
  | nil => intro acc; rfl
  | cons p ps ih =>
    intro acc
    rw [List.foldl_cons, ih, variantPairs_cons, processPairs_append]
    congr 1
    simp [processPairs, List.foldl_map]

theorem processPairs_lookup_alerted_ne (now : Int) (pairs : List (String × Variant))
    (k : String) (h : k ∉ pairs.map (fun pv => pv.2.id)) :
    ∀ acc, lookupKey (processPairs now pairs acc).2.alerted_items k =
      lookupKey acc.2.alerted_items k := by
  induction pairs with
  | nil => intro acc; rfl
  | cons pv rest ih =>
    intro acc
    simp only [List.map_cons, List.mem_cons] at h
    push_neg at h
    rw [processPairs_cons, ih h.2]
    exact processVariant_lookup_alerted_ne now pv.1 pv.2 acc k h.1

theorem processPairs_lookup_pending_ne (now : Int) (pairs : List (String × Variant))
    (k : String) (h : k ∉ pairs.map (fun pv => pv.2.id)) :
    ∀ acc, lookupKey (processPairs now pairs acc).2.pending_reminders k =
      lookupKey acc.2.pending_reminders k := by
  induction pairs with
  | nil => intro acc; rfl
  | cons pv rest ih =>
    intro acc
    simp only [List.map_cons, List.mem_cons] at h
    push_neg at h
    rw [processPairs_cons, ih h.2]
    exact processVariant_lookup_pending_ne now pv.1 pv.2 acc k h.1

/-! ### Post-state of a processed variant -/

/-- After the evaluator has processed a variant, its ledger entry is settled:
a low-stock variant is recorded at an inventory at least the current one, and a
variant above the threshold has no entry. -/
def VarP (st : AlertData) (v : Variant) : Prop :=
  (v.inventory_quantity.getD 0 ≤ INVENTORY_THRESHOLD →
     ∃ r, lookupKey st.alerted_items v.id = some r ∧
       v.inventory_quantity.getD 0 ≤ r.inventory) ∧
  (INVENTORY_THRESHOLD < v.inventory_quantity.getD 0 →
     lookupKey st.alerted_items v.id = none)

theorem processVariant_establishes_varP (now : Int) (pt : String) (v : Variant)
    (acc : List Item × AlertData) : VarP (processVariant now pt v acc).2 v := by
  by_cases h1 : v.inventory_quantity.getD 0 ≤ INVENTORY_THRESHOLD
  · cases hfind : lookupKey acc.2.alerted_items v.id with
    | none =>
      rw [processVariant_raise_none now pt v acc h1 hfind]
      refine ⟨fun _ => ⟨_, lookupKey_setKey_self acc.2.alerted_items v.id _, le_refl _⟩,
        fun h2 => absurd h1 (by omega)⟩
    | some r =>
      by_cases h3 : r.inventory < v.inventory_quantity.getD 0
      · rw [processVariant_raise_lt now pt v acc h1 r hfind h3]
        refine ⟨fun _ => ⟨_, lookupKey_setKey_self acc.2.alerted_items v.id _, le_refl _⟩,
          fun h2 => absurd h1 (by omega)⟩
      · rw [processVariant_skip now pt v acc h1 r hfind h3]
        exact ⟨fun _ => ⟨r, hfind, by omega⟩, fun h2 => absurd h1 (by omega)⟩
  · by_cases h2 : (lookupKey acc.2.alerted_items v.id).isSome
    · rw [processVariant_replenish now pt v acc h1 h2]
      exact ⟨fun hl => absurd hl h1,
        fun _ => lookupKey_delKey_self acc.2.alerted_items v.id⟩
    · rw [processVariant_high_absent now pt v acc h1 h2]
      exact ⟨fun hl => absurd hl h1,
        fun _ => Option.not_isSome_iff_eq_none.mp h2⟩

theorem varP_of_lookup_eq (st st' : AlertData) (v : Variant)
    (h : lookupKey st'.alerted_items v.id = lookupKey st.alerted_items v.id)
    (hp : VarP st v) : VarP st' v := by
  constructor
  · intro hl
    rw [h]
    exact hp.1 hl
  · intro hh
    rw [h]
    exact hp.2 hh

theorem processVariant_noop (now : Int) (pt : String) (v : Variant)
    (acc : List Item × AlertData) (h : VarP acc.2 v) :
    processVariant now pt v acc = acc := by
  by_cases h1 : v.inventory_quantity.getD 0 ≤ INVENTORY_THRESHOLD
  · obtain ⟨r, hr, hge⟩ := h.1 h1
    exact processVariant_skip now pt v acc h1 r hr (by omega)
  · have hn := h.2 (by omega)
    exact processVariant_high_absent now pt v acc h1 (by simp [hn])

theorem processPairs_post (now : Int) (pairs : List (String × Variant))
    (hnd : (pairs.map (fun pv => pv.2.id)).Nodup) :
    ∀ acc, ∀ pv ∈ pairs, VarP (processPairs now pairs acc).2 pv.2 := by
  induction pairs with
  | nil => intro acc pv hpv; simp at hpv
  | cons pv0 rest ih =>
    simp only [List.map_cons, List.nodup_cons] at hnd
    intro acc pv hpv
    rw [List.mem_cons] at hpv
    rcases hpv with hpv | hpv
    · subst hpv
      rw [processPairs_cons]
      refine varP_of_lookup_eq _ _ _
        (processPairs_lookup_alerted_ne now rest pv.2.id hnd.1
          (processVariant now pv.1 pv.2 acc)) ?_
      exact processVariant_establishes_varP now pv.1 pv.2 acc
    · rw [processPairs_cons]
      exact ih hnd.2 (processVariant now pv0.1 pv0.2 acc) pv hpv

theorem processPairs_noop (now : Int) (pairs : List (String × Variant)) :
    ∀ acc, (∀ pv ∈ pairs, VarP acc.2 pv.2) → processPairs now pairs acc = acc := by
  induction pairs with
  | nil => intro acc _; rfl
  | cons pv0 rest ih =>
    intro acc h
    rw [processPairs_cons, processVariant_noop now pv0.1 pv0.2 acc
      (h pv0 (List.mem_cons_self pv0 rest))]
    exact ih acc (fun pv hpv => h pv (List.mem_cons_of_mem pv0 hpv))

/-! ### C5: idempotence of the evaluator on a fixed snapshot -/

/-- C5: running the evaluator a second time on the identical snapshot, starting
from the ledger the first run produced, emits zero new low-inventory items and
leaves the `alerted_items` entries unchanged.  The snapshot is assumed to list
each variant id once, as catalog variant ids are unique identifiers. -/
theorem c5_evaluator_idempotent (now now2 : Int) (products : List Product)
    (st0 : AlertData)
    (hnd : ((variantPairs products).map (fun pv => pv.2.id)).Nodup) :
    (processProducts now2 products (processProducts now products st0).2).1 = [] ∧
    (processProducts now2 products (processProducts now products st0).2).2.alerted_items =
      (processProducts now products st0).2.alerted_items := by
  have hpost := processPairs_post now (variantPairs products) hnd ([], st0)
  rw [processProducts_eq_processPairs now products st0]
  rw [processProducts_eq_processPairs now2 products
    (processPairs now (variantPairs products) ([], st0)).2]
  have hno := processPairs_noop now2 (variantPairs products)
    ([], (processPairs now (variantPairs products) ([], st0)).2)
    (fun pv hpv => hpost pv hpv)
  rw [hno]
  exact ⟨rfl, rfl⟩

/-- Witness for C5: one product with one low-stock variant, empty initial
ledger; the second run emits nothing and keeps the alerted entry. -/
theorem c5_evaluator_idempotent_witness :
    (processProducts 1 [⟨"P", [⟨"100", "M", some 1⟩]⟩]
      (processProducts 0 [⟨"P", [⟨"100", "M", some 1⟩]⟩] ⟨[], []⟩).2).1 = [] ∧
    (processProducts 1 [⟨"P", [⟨"100", "M", some 1⟩]⟩]
      (processProducts 0 [⟨"P", [⟨"100", "M", some 1⟩]⟩] ⟨[], []⟩).2).2.alerted_items =
      (processProducts 0 [⟨"P", [⟨"100", "M", some 1⟩]⟩] ⟨[], []⟩).2.alerted_items :=
  c5_evaluator_idempotent 0 1 [⟨"P", [⟨"100", "M", some 1⟩]⟩] ⟨[], []⟩ (by decide)

/-! ### C6: per-entry behavior of the reminder scheduler -/

/-- C6: for a pending reminder entry `(vid, due)` (pending keys unique, as in a
dict): before the due time the scheduler emits no item for it and keeps the
entry; at or after the due time, with the variant still in `alerted_items`, it
emits exactly one item for it and removes the entry; and the mutated ledger
returned by `check_reminders` does not depend on whether the subsequent
notification send succeeds. -/
theorem c6_reminder_entry (now : Int) (st : AlertData) (vid : String) (due : Int)
    (hmem : lookupKey st.pending_reminders vid = some due)
    (hnd : (st.pending_reminders.map Prod.fst).Nodup) :
    (now < due →
       (schedLoop now st.alerted_items st.pending_reminders).1.countP
           (fun it => decide (it.variant_id = some vid)) = 0 ∧
       lookupKey (schedLoop now st.alerted_items st.pending_reminders).2 vid = some due) ∧
    (due ≤ now → (lookupKey st.alerted_items vid).isSome →
       (schedLoop now st.alerted_items st.pending_reminders).1.countP
           (fun it => decide (it.variant_id = some vid)) = 1 ∧
       lookupKey (schedLoop now st.alerted_items st.pending_reminders).2 vid = none) ∧
    (check_reminders now true st).1 = (check_reminders now false st).1 := by
  have h := schedLoop_entry now st.alerted_items st.pending_reminders vid due hmem hnd
  refine ⟨h.1, ?_, rfl⟩
  intro hd ha
  have h2 := h.2 hd
  exact ⟨by rw [h2.2, if_pos ha], h2.1⟩

/-- Witness for C6: variant "100" is alerted and its reminder is due at 10;
at time 10 the scheduler emits exactly one item for it and drops the entry. -/
theorem c6_reminder_entry_witness :
    (schedLoop 10 [("100", { last_alert := 0, inventory := 1 })] [("100", 10)]).1.countP
        (fun it => decide (it.variant_id = some "100")) = 1 ∧
    lookupKey (schedLoop 10 [("100", { last_alert := 0, inventory := 1 })]
        [("100", 10)]).2 "100" = none :=
  (c6_reminder_entry 10
    { alerted_items := [("100", { last_alert := 0, inventory := 1 })],
      pending_reminders := [("100", 10)] } "100" 10 (by decide) (by decide)).2.1
    (by decide) (by decide)

/-! ### C7: replenished variants are cleared from both maps -/

/-- C7: a snapshot variant with inventory strictly above the threshold that has
an `alerted_items` entry is removed by the evaluator from `alerted_items`
together with its `pending_reminders` entry (`main.py:84-89`).  Snapshot
variant ids are assumed unique. -/
theorem c7_replenished_cleared (now : Int) (products : List Product) (st0 : AlertData)
    (pt : String) (v : Variant)
    (hmem : (pt, v) ∈ variantPairs products)
    (hnd : ((variantPairs products).map (fun pv => pv.2.id)).Nodup)
    (hhigh : INVENTORY_THRESHOLD < v.inventory_quantity.getD 0)
    (hentry : (lookupKey st0.alerted_items v.id).isSome) :
    lookupKey (processProducts now products st0).2.alerted_items v.id = none ∧
    lookupKey (processProducts now products st0).2.pending_reminders v.id = none := by
  obtain ⟨l1, l2, hsplit⟩ := List.append_of_mem hmem
  rw [processProducts_eq_processPairs now products st0, hsplit]
  rw [hsplit] at hnd
  rw [List.map_append, List.map_cons, List.nodup_append] at hnd
  obtain ⟨hnd1, hnd2, hdisj⟩ := hnd
  have hv2 : v.id ∉ l2.map (fun pv => pv.2.id) := by
    rw [List.nodup_cons] at hnd2
    exact hnd2.1
  have hv1 : v.id ∉ l1.map (fun pv => pv.2.id) := by
    intro hin
    exact hdisj hin (List.mem_cons_self _ _)
  rw [processPairs_append, processPairs_cons]
  have e1 : lookupKey (processPairs now l1 ([], st0)).2.alerted_items v.id =
      lookupKey st0.alerted_items v.id :=
    processPairs_lookup_alerted_ne now l1 v.id hv1 ([], st0)
  have hstep := processVariant_replenish now pt v (processPairs now l1 ([], st0))
    (by omega) (by rw [e1]; exact hentry)
  rw [hstep]
  rw [processPairs_lookup_alerted_ne now l2 v.id hv2, processPairs_lookup_pending_ne now l2 v.id hv2]
  exact ⟨lookupKey_delKey_self _ v.id, lookupKey_delKey_self _ v.id⟩

/-- Witness for C7: variant "100" recovered to inventory 5 while tracked in the
ledger; the evaluator clears it from both maps. -/
theorem c7_replenished_cleared_witness :
    lookupKey (processProducts 3 [⟨"P", [⟨"100", "M", some 5⟩]⟩]
      ⟨[("100", ⟨0, 1⟩)], [("100", 7)]⟩).2.alerted_items "100" = none ∧
    lookupKey (processProducts 3 [⟨"P", [⟨"100", "M", some 5⟩]⟩]
      ⟨[("100", ⟨0, 1⟩)], [("100", 7)]⟩).2.pending_reminders "100" = none :=
  c7_replenished_cleared 3 [⟨"P", [⟨"100", "M", some 5⟩]⟩]
    ⟨[("100", ⟨0, 1⟩)], [("100", 7)]⟩ "P" ⟨"100", "M", some 5⟩
    (by decide) (by decide) (by decide) (by decide)

/-! ### C8: the pending-implies-alerted invariant -/

/-- Every key of `pending_reminders` also keys `alerted_items`. -/
def InvP (st : AlertData) : Prop :=
  ∀ k, (lookupKey st.pending_reminders k).isSome →
    (lookupKey st.alerted_items k).isSome

theorem processVariant_invP (now : Int) (pt : String) (v : Variant)
    (acc : List Item × AlertData) (h : InvP acc.2) :
    InvP (processVariant now pt v acc).2 := by
  by_cases h1 : v.inventory_quantity.getD 0 ≤ INVENTORY_THRESHOLD
  · cases hfind : lookupKey acc.2.alerted_items v.id with
    | none =>
      rw [processVariant_raise_none now pt v acc h1 hfind]
      simp only [raiseResult]
      intro k hk
      by_cases hkv : k = v.id
      · subst hkv
        rw [lookupKey_setKey_self]
        rfl
      · rw [lookupKey_setKey_ne acc.2.alerted_items v.id k _ (Ne.symm hkv)]
        rw [lookupKey_setKey_ne acc.2.pending_reminders v.id k _ (Ne.symm hkv)] at hk
        exact h k hk
    | some r =>
      by_cases h3 : r.inventory < v.inventory_quantity.getD 0
      · rw [processVariant_raise_lt now pt v acc h1 r hfind h3]
        simp only [raiseResult]
        intro k hk
        by_cases hkv : k = v.id
        · subst hkv
          rw [lookupKey_setKey_self]
          rfl
        · rw [lookupKey_setKey_ne acc.2.alerted_items v.id k _ (Ne.symm hkv)]
          rw [lookupKey_setKey_ne acc.2.pending_reminders v.id k _ (Ne.symm hkv)] at hk
          exact h k hk
      · rw [processVariant_skip now pt v acc h1 r hfind h3]
        exact h
  · by_cases h2 : (lookupKey acc.2.alerted_items v.id).isSome
    · rw [processVariant_replenish now pt v acc h1 h2]
      intro k hk
      by_cases hkv : k = v.id
      · subst hkv
        rw [lookupKey_delKey_self] at hk
        simp at hk
      · rw [lookupKey_delKey_ne acc.2.alerted_items v.id k (Ne.symm hkv)]
        rw [lookupKey_delKey_ne acc.2.pending_reminders v.id k (Ne.symm hkv)] at hk
        exact h k hk
    · rw [processVariant_high_absent now pt v acc h1 h2]
      exact h

theorem processPairs_invP (now : Int) (pairs : List (String × Variant)) :
    ∀ acc, InvP acc.2 → InvP (processPairs now pairs acc).2 := by
  induction pairs with
  | nil => intro acc h; exact h
  | cons pv rest ih =>
    intro acc h
    rw [processPairs_cons]
    exact ih (processVariant now pv.1 pv.2 acc) (processVariant_invP now pv.1 pv.2 acc h)

/-- C8: the invariant "every `pending_reminders` key has an `alerted_items`
entry" is preserved both by the evaluator and by the reminder scheduler; and a
ledger read with an orphaned due reminder (a `pending_reminders` key absent
from `alerted_items`) is tolerated: the orphan contributes no reminder item and
its entry is dropped from the mutated ledger. -/
theorem c8_invariant_and_orphan_tolerance (now : Int) (sendOk : Bool)
    (products : List Product) (st : AlertData) (vid : String) (due : Int) :
    (InvP st →
       InvP (processProducts now products st).2 ∧
       InvP (check_reminders now sendOk st).1) ∧
    (lookupKey st.pending_reminders vid = some due → due ≤ now →
       lookupKey st.alerted_items vid = none →
       (st.pending_reminders.map Prod.fst).Nodup →
       (schedLoop now st.alerted_items st.pending_reminders).1.countP
           (fun it => decide (it.variant_id = some vid)) = 0 ∧
       lookupKey (check_reminders now sendOk st).1.pending_reminders vid = none) := by
  constructor
  · intro hinv
    constructor
    · rw [processProducts_eq_processPairs now products st]
      exact processPairs_invP now (variantPairs products) ([], st) hinv
    · intro k hk
      exact hinv k (schedLoop_pending_isSome now st.alerted_items st.pending_reminders k hk)
  · intro hmem hdue hno hnd
    have h := (schedLoop_entry now st.alerted_items st.pending_reminders vid due hmem hnd).2 hdue
    refine ⟨?_, h.1⟩
    rw [h.2, hno]
    rfl

/-- Witness for C8: the invariant part at a ledger tracking variant "100", and
the orphan part at a ledger whose only reminder key "200" has no alert entry. -/
theorem c8_invariant_and_orphan_tolerance_witness :
    (lookupKey (processProducts 0 []
        (⟨[("100", ⟨0, 1⟩)], [("100", 5)]⟩ : AlertData)).2.alerted_items "100").isSome ∧
    (schedLoop 0 [] [("200", 0)]).1.countP
        (fun it => decide (it.variant_id = some "200")) = 0 ∧
    lookupKey (check_reminders 0 true
      (⟨[], [("200", 0)]⟩ : AlertData)).1.pending_reminders "200" = none := by
  have hinv : InvP ⟨[("100", ⟨0, 1⟩)], [("100", 5)]⟩ := by
    intro k hk
    by_cases h : ("100" : String) = k
    · simp [lookupKey, h]
    · simp [lookupKey, h] at hk
  have h1 := (c8_invariant_and_orphan_tolerance 0 true []
    ⟨[("100", ⟨0, 1⟩)], [("100", 5)]⟩ "100" 5).1 hinv
  have h2 := (c8_invariant_and_orphan_tolerance 0 true []
    (⟨[], [("200", 0)]⟩ : AlertData) "200" 0).2
    (by decide) (by decide) (by decide) (by decide)
  refine ⟨h1.1 "100" (by decide), h2.1, h2.2⟩

/-! ### Item shapes and body building -/

/-- An item carrying all the fields the renderer reads. -/
def FullItem (it : Item) : Prop :=
  it.product_title.isSome ∧ it.variant_title.isSome ∧ it.inventory.isSome

theorem schedLoop_items_shape (now : Int) (alerted : List (String × AlertRecord))
    (pending : List (String × Int)) :
    ∀ it ∈ (schedLoop now alerted pending).1,
      it.product_title = none ∧ it.variant_title = none ∧ it.inventory = none := by
  induction pending with
  | nil => simp [schedLoop_nil]
  | cons p rest ih =>
    obtain ⟨k, d⟩ := p
    by_cases hd : d ≤ now
    · by_cases ha : (lookupKey alerted k).isSome
      · rw [schedLoop_cons_due_some now alerted k d rest hd ha]
        intro it hit
        rcases List.mem_cons.mp hit with hit | hit
        · subst hit
          exact ⟨rfl, rfl, rfl⟩
        · exact ih it hit
      · rw [schedLoop_cons_due_none now alerted k d rest hd ha]
        exact ih
    · rw [schedLoop_cons_notdue now alerted k d rest hd]
      exact ih

theorem buildBody_error_of_shape (items : List Item) (hne : items ≠ [])
    (h : ∀ it ∈ items, it.product_title = none) :
    ∃ e, buildBody items = Except.error e := by
  cases items with
  | nil => exact absurd rfl hne
  | cons it rest =>
    have hpt := h it (List.mem_cons_self it rest)
    refine ⟨"KeyError: product_title", ?_⟩
    simp [buildBody, renderItem, hpt]

theorem buildBody_ok_of_full (items : List Item) (h : ∀ it ∈ items, FullItem it) :
    ∃ s, buildBody items = Except.ok s := by
  induction items with
  | nil => exact ⟨"", rfl⟩
  | cons it rest ih =>
    obtain ⟨hp, hvt, hinv⟩ := h it (List.mem_cons_self it rest)
    obtain ⟨p, hp⟩ := Option.isSome_iff_exists.mp hp
    obtain ⟨vt, hvt⟩ := Option.isSome_iff_exists.mp hvt
    obtain ⟨inv, hinv⟩ := Option.isSome_iff_exists.mp hinv
    obtain ⟨s, hs⟩ := ih (fun x hx => h x (List.mem_cons_of_mem it hx))
    refine ⟨"- " ++ p ++ " (" ++ vt ++ "): " ++ toString inv ++ " items remaining\n" ++ s, ?_⟩
    simp [buildBody, renderItem, hp, hvt, hinv, hs]

theorem processVariant_items_full (now : Int) (pt : String) (v : Variant)
    (acc : List Item × AlertData) (h : ∀ it ∈ acc.1, FullItem it) :
    ∀ it ∈ (processVariant now pt v acc).1, FullItem it := by
  by_cases h1 : v.inventory_quantity.getD 0 ≤ INVENTORY_THRESHOLD
  · cases hfind : lookupKey acc.2.alerted_items v.id with
    | none =>
      rw [processVariant_raise_none now pt v acc h1 hfind]
      simp only [raiseResult]
      intro it hit
      rcases List.mem_append.mp hit with hit | hit
      · exact h it hit
      · rcases List.mem_singleton.mp hit with rfl
        exact ⟨rfl, rfl, rfl⟩
    | some r =>
      by_cases h3 : r.inventory < v.inventory_quantity.getD 0
      · rw [processVariant_raise_lt now pt v acc h1 r hfind h3]
        simp only [raiseResult]
        intro it hit
        rcases List.mem_append.mp hit with hit | hit
        · exact h it hit
        · rcases List.mem_singleton.mp hit with rfl
          exact ⟨rfl, rfl, rfl⟩
      · rw [processVariant_skip now pt v acc h1 r hfind h3]
        exact h
  · by_cases h2 : (lookupKey acc.2.alerted_items v.id).isSome
    · rw [processVariant_replenish now pt v acc h1 h2]
      exact h
    · rw [processVariant_high_absent now pt v acc h1 h2]
      exact h

theorem processPairs_items_full (now : Int) (pairs : List (String × Variant)) :
    ∀ acc, (∀ it ∈ acc.1, FullItem it) →
      ∀ it ∈ (processPairs now pairs acc).1, FullItem it := by
  induction pairs with
  | nil => intro acc h; exact h
  | cons pv rest ih =>
    intro acc h
    rw [processPairs_cons]
    exact ih (processVariant now pv.1 pv.2 acc)
      (processVariant_items_full now pv.1 pv.2 acc h)

theorem processProducts_items_full (now : Int) (products : List Product) (st : AlertData) :
    ∀ it ∈ (processProducts now products st).1, FullItem it := by
  rw [processProducts_eq_processPairs]
  exact processPairs_items_full now (variantPairs products) ([], st) (by simp)

/-! ### C9: due reminders crash the renderer and lose the ledger -/

/-- C9: every item the reminder scheduler produces carries only the variant id
(`main.py:146-149`), while the renderer unconditionally reads the product
title, variant title and inventory fields (`main.py:116-117`); hence whenever
at least one reminder is due for a still-alerted variant, building the
reminder email fails with a `KeyError` before any send attempt, and in the full
inventory-check cycle that exception reaches the outer handler
(`main.py:101`), so the mutated ledger is never saved. -/
theorem c9_due_reminder_key_error (fetch : Except String (List Product))
    (products : List Product) (stored : AlertData) (now : Int) (s1 s2 : Bool)
    (hfetch : fetch = Except.ok products)
    (hdue : (schedLoop now (processProducts now products stored).2.alerted_items
        (processProducts now products stored).2.pending_reminders).1 ≠ []) :
    (∀ it ∈ (schedLoop now (processProducts now products stored).2.alerted_items
        (processProducts now products stored).2.pending_reminders).1,
       it.product_title = none ∧ it.variant_title = none ∧ it.inventory = none) ∧
    (∃ e, buildBody (schedLoop now (processProducts now products stored).2.alerted_items
        (processProducts now products stored).2.pending_reminders).1 = Except.error e) ∧
    (check_inventory fetch stored now s1 s2).saved = none ∧
    (check_inventory fetch stored now s1 s2).reminderEmail = none ∧
    (check_inventory fetch stored now s1 s2).errorLogged = true := by
  subst hfetch
  have hshape := schedLoop_items_shape now
    (processProducts now products stored).2.alerted_items
    (processProducts now products stored).2.pending_reminders
  obtain ⟨e, he⟩ := buildBody_error_of_shape _ hdue (fun it hit => (hshape it hit).1)
  refine ⟨hshape, ⟨e, he⟩, ?_⟩
  have hitems : (schedLoop now (processProducts now products stored).2.alerted_items
      (processProducts now products stored).2.pending_reminders).1.isEmpty = false := by
    cases hl : (schedLoop now (processProducts now products stored).2.alerted_items
        (processProducts now products stored).2.pending_reminders).1 with
    | nil => exact absurd hl hdue
    | cons a l => rfl
  have hrem : (check_reminders now s2 (processProducts now products stored).2).2 =
      Except.error e := by
    simp only [check_reminders, hitems, Bool.false_eq_true, if_false,
      send_inventory_alert, he]
  have hcyc : check_inventory (Except.ok products) stored now s1 s2 =
      { saved := none,
        alertEmail := (if (processProducts now products stored).1.isEmpty then none
          else if s1 then
            some { subject := "Low Inventory Alert",
                   body := "The following items have low inventory:\n" ++
                     (buildBody (processProducts now products stored).1).toOption.getD "" }
          else none),
        reminderEmail := none, errorLogged := true } := by
    obtain ⟨s, hs⟩ := buildBody_ok_of_full (processProducts now products stored).1
      (processProducts_items_full now products stored)
    by_cases hle : (processProducts now products stored).1.isEmpty
    · simp only [check_inventory, hle, if_true, hrem, hle]
    · simp only [check_inventory, hle, Bool.false_eq_true, if_false,
        send_inventory_alert, hs, hrem, Except.toOption]
      rfl
  rw [hcyc]
  exact ⟨rfl, rfl, rfl⟩

/-- Witness for C9: a ledger tracking variant "100" with its reminder due; the
full cycle at time 1 on an empty catalog is never saved. -/
theorem c9_due_reminder_key_error_witness :
    (check_inventory (Except.ok []) ⟨[("100", ⟨0, 0⟩)], [("100", 0)]⟩ 1 true true).saved
        = none ∧
    (check_inventory (Except.ok []) ⟨[("100", ⟨0, 0⟩)], [("100", 0)]⟩ 1 true true).errorLogged
        = true := by
  have h := c9_due_reminder_key_error (Except.ok []) []
    ⟨[("100", ⟨0, 0⟩)], [("100", 0)]⟩ 1 true true rfl (by decide)
  exact ⟨h.2.2.1, h.2.2.2.2⟩

/-! ### C2: reminder processed-once semantics across invocations -/

/-- C2 fails on the code: `handle_reminder_check` never calls
`save_inventory_alerts` (`main.py:212-221`), so after an invocation that found
the reminder for the still-alerted variant "100" due (the scheduler removes it
from the in-memory dict and emits one item), the persisted ledger is the
unchanged input: the due entry is still present and the next invocation
re-evaluates it as due.  The invocation also answers 500 without sending
(the renderer's `KeyError`), rather than firing once and persisting the
removal. -/
theorem c2_reminder_removal_not_persisted :
    handle_reminder_check ⟨[("100", ⟨0, 0⟩)], [("100", 7)]⟩ 8 true =
      (500, none, ⟨[("100", ⟨0, 0⟩)], [("100", 7)]⟩) ∧
    (schedLoop 8 [("100", ⟨0, 0⟩)] [("100", 7)]).2 = [] ∧
    lookupKey (handle_reminder_check
        ⟨[("100", ⟨0, 0⟩)], [("100", 7)]⟩ 8 true).2.2.pending_reminders "100" = some 7 := by
  refine ⟨by decide, by decide, by decide⟩

/-! ### C3: response to the caller when the catalog fetch fails -/

/-- C3 counterexample: with a failing catalog fetch the webhook caller still
receives HTTP 200 "success" (the claim says it receives a failure response),
because `check_inventory` swallows the fetch exception itself
(`main.py:101-102`) and `handle_order_webhook`'s `except` branch is never
reached. -/
theorem c3_fetch_failure_still_success :
    handle_order_webhook (Except.error "ConnectionError") ⟨[], []⟩ 0 true true =
      (200, "success",
       { saved := none, alertEmail := none, reminderEmail := none, errorLogged := true }) := by
  decide

/-- C3 amended: if the catalog fetch fails the cycle logs and aborts with the
ledger unsaved and no notification sent, but the triggering caller receives a
success response in that case too; the caller receives a success response in
every case. -/
theorem c3_fetch_failure_aborts_but_caller_sees_success
    (fetch : Except String (List Product)) (stored : AlertData) (now : Int)
    (s1 s2 : Bool) :
    (handle_order_webhook fetch stored now s1 s2).1 = 200 ∧
    (handle_order_webhook fetch stored now s1 s2).2.1 = "success" ∧
    (∀ e, fetch = Except.error e →
       (handle_order_webhook fetch stored now s1 s2).2.2 =
         { saved := none, alertEmail := none, reminderEmail := none,
           errorLogged := true }) := by
  refine ⟨rfl, rfl, ?_⟩
  intro e he
  subst he
  rfl

/-- Witness for the amended C3 at a concrete failing fetch. -/
theorem c3_fetch_failure_aborts_but_caller_sees_success_witness :
    (handle_order_webhook (Except.error "boom") ⟨[], []⟩ 0 true true).1 = 200 ∧
    (handle_order_webhook (Except.error "boom") ⟨[], []⟩ 0 true true).2.2 =
      { saved := none, alertEmail := none, reminderEmail := none,
        errorLogged := true } := by
  have h := c3_fetch_failure_aborts_but_caller_sees_success (Except.error "boom")
    ⟨[], []⟩ 0 true true
  exact ⟨h.1, h.2.2 "boom" rfl⟩

/-! ### C4: the save must not depend on notification failure -/

/-- C4 fails on the code: in a full cycle where the reminder notification
attempt fails (the renderer's `KeyError` on the title-less reminder items,
raised before any send), the save at `main.py:99` is skipped, whatever the
delivery outcomes: the ledger with variant "100" due is never persisted. -/
theorem c4_save_skipped_when_reminder_notification_fails :
    check_inventory (Except.ok []) ⟨[("100", ⟨0, 0⟩)], [("100", 7)]⟩ 8 false false =
      { saved := none, alertEmail := none, reminderEmail := none, errorLogged := true } ∧
    check_inventory (Except.ok []) ⟨[("100", ⟨0, 0⟩)], [("100", 7)]⟩ 8 true true =
      { saved := none, alertEmail := none, reminderEmail := none, errorLogged := true } := by
  refine ⟨by decide, by decide⟩

end ShopifyAlerts
